import Mathlib

/-!
Verification development for a lockstep frame-synchronization multiplayer
game (TypeScript client + Node.js server).  The definitions below are a
shallow embedding of the source:

* `FixedPoint.ts` : Q16.16 fixed-point math (`fromFloat`, `toFloat`,
  `fMul`, `fDiv`, `FixedVec2`) and the linear congruential PRNG
  (`DeterministicRandom`).
* `server.js`     : room record, `handleGameStart` / `startGame`,
  `handlePlayerInput`, `processFrame`, `handlePlayerScore`.
* `FrameSyncManager.ts` : client jitter buffer (`onFrameData`,
  `frameUpdate`, `getConsecutiveFramesCount`).
* `Ball.ts`       : entity simulation (`processFrameData`,
  `updatePhysics`, `checkBoundaries`, `checkCollisionWith`,
  `handleCollisionWith`, `consumeBall`).
* `GameManager.ts`: match-end logic (`checkGameEnd`, `endGame`) and the
  player bookkeeping feeding it.

JavaScript `number` values that the code keeps integral (fixed-point
words, frame ids, scores) are modelled as `Int`/`Nat`; exact rational
values (the tick duration `1/30`, PRNG outputs `state / 2^32`) as `Rat`;
genuinely irrational float computations (`Math.sqrt`, `Math.PI` in the
consume mechanic) as `Real`.  `BigInt` division in JS truncates toward
zero, hence `Int.tdiv`.
-/

/-- Number of fractional bits of the Q16.16 representation (`PRECISION`). -/
def PRECISION : ℕ := 16

/-- Scale factor `2^PRECISION` (`FACTOR`). -/
def FACTOR : ℤ := 65536

/-- JavaScript `Math.round`: round to nearest, ties toward positive
infinity, i.e. `⌊x + 1/2⌋`. -/
def jsRound (x : ℚ) : ℤ := ⌊x + 1/2⌋

/-- `fromFloat(n) = Math.round(n * FACTOR)`. -/
def fromFloat (x : ℚ) : ℤ := jsRound (x * 65536)

/-- `toFloat(n) = n / FACTOR`. -/
def toFloat (n : ℤ) : ℚ := (n : ℚ) / 65536

/-- `fMul(a, b) = Number((BigInt(a) * BigInt(b)) / FACTOR_BI)`;
BigInt division truncates toward zero. -/
def fMul (a b : ℤ) : ℤ := Int.tdiv (a * b) 65536

/-- `fDiv(a, b) = Number((BigInt(a) * FACTOR_BI) / BigInt(b))`. -/
def fDiv (a b : ℤ) : ℤ := Int.tdiv (a * 65536) b

/-- Two-component fixed-point vector (`FixedVec2`). -/
structure FixedVec2 where
  x : ℤ
  y : ℤ
deriving DecidableEq

/-- `FixedVec2.add` (componentwise). -/
def FixedVec2.add (a b : FixedVec2) : FixedVec2 := ⟨a.x + b.x, a.y + b.y⟩

/-- `FixedVec2.multiplyScalar` (componentwise `fMul`). -/
def FixedVec2.multiplyScalar (v : FixedVec2) (s : ℤ) : FixedVec2 :=
  ⟨fMul v.x s, fMul v.y s⟩

/-- LCG multiplier `a` of `DeterministicRandom`. -/
def lcgA : ℕ := 1664525

/-- LCG increment `c` of `DeterministicRandom`. -/
def lcgC : ℕ := 1013904223

/-- LCG modulus `m = 2^32` of `DeterministicRandom`. -/
def lcgM : ℕ := 4294967296

/-- One state update of `DeterministicRandom.next()`:
`seed = (a * seed + c) % m`. -/
def lcgNext (s : ℕ) : ℕ := (lcgA * s + lcgC) % lcgM

/-- The value returned by `next()` for a (post-update) state:
`seed / m`. -/
def lcgValue (s : ℕ) : ℚ := (s : ℚ) / (lcgM : ℚ)

/-- The list of the first `n` values produced by successive calls to
`next()` starting from seed `s`. -/
def lcgStream (s : ℕ) : ℕ → List ℚ
  | 0 => []
  | n + 1 => lcgValue (lcgNext s) :: lcgStream (lcgNext s) n

theorem lcgNext_lt (s : ℕ) : lcgNext s < lcgM :=
  Nat.mod_lt _ (by decide)

theorem lcgValue_nonneg (s : ℕ) : 0 ≤ lcgValue s := by
  unfold lcgValue
  positivity

theorem lcgValue_lt_one (s : ℕ) (h : s < lcgM) : lcgValue s < 1 := by
  unfold lcgValue
  rw [div_lt_one (by norm_num [lcgM])]
  exact_mod_cast h

/-- C1: each call to `DeterministicRandom.next()` replaces the state by
`(1664525*state + 1013904223) mod 2^32`; for every state below `2^32` the
intermediate `a*state + c` stays below `2^53`, so the JavaScript
double-precision computation is exact (no floating-point approximation
error); the new state is again below `2^32`; the returned value
`state/2^32` lies in `[0, 1)`; and two generators seeded equally (in
particular both with 12345) produce identical 10-value sequences. -/
theorem deterministicRandom_next_spec (s : ℕ) (hs : s < 2 ^ 32) :
    lcgNext s = (1664525 * s + 1013904223) % 2 ^ 32 ∧
    1664525 * s + 1013904223 < 2 ^ 53 ∧
    lcgNext s < 2 ^ 32 ∧
    0 ≤ lcgValue (lcgNext s) ∧ lcgValue (lcgNext s) < 1 ∧
    (∀ t : ℕ, t = s → lcgStream t 10 = lcgStream s 10) := by
  refine ⟨rfl, by omega, ?_, ?_, ?_, ?_⟩
  · exact lcgNext_lt s
  · exact lcgValue_nonneg _
  · exact lcgValue_lt_one _ (lcgNext_lt s)
  · intro t ht; rw [ht]

theorem deterministicRandom_next_spec_witness :
    (12345 < 2 ^ 32) ∧
    (lcgNext 12345 = (1664525 * 12345 + 1013904223) % 2 ^ 32 ∧
      1664525 * 12345 + 1013904223 < 2 ^ 53 ∧
      lcgNext 12345 < 2 ^ 32 ∧
      0 ≤ lcgValue (lcgNext 12345) ∧ lcgValue (lcgNext 12345) < 1 ∧
      (∀ t : ℕ, t = 12345 → lcgStream t 10 = lcgStream 12345 10)) :=
  ⟨by norm_num, deterministicRandom_next_spec 12345 (by norm_num)⟩

/-- C9: the fixed-point round trip loses less than `2^-16`:
`|toFloat (fromFloat x) - x| < 2^-16` for every (exact real, modelled as
rational) input `x`, where `fromFloat x = round(x * 65536)` and
`toFloat n = n / 65536`. -/
theorem fixedPoint_roundtrip (x : ℚ) :
    |toFloat (fromFloat x) - x| < 1 / 2 ^ 16 := by
  have h1 : ((fromFloat x : ℤ) : ℚ) ≤ x * 65536 + 1 / 2 :=
    Int.floor_le (x * 65536 + 1 / 2)
  have h2 : x * 65536 + 1 / 2 - 1 < ((fromFloat x : ℤ) : ℚ) :=
    Int.sub_one_lt_floor (x * 65536 + 1 / 2)
  unfold toFloat
  rw [abs_sub_lt_iff]
  constructor <;> [linarith; linarith]

/-! ### Server room registry and input scheduler (`server.js`) -/

/-- Server-side room lifecycle state.  `server.js` only ever stores the
strings `'waiting'` and `'playing'` in `room.gameState`. -/
inductive SGameState where
  | waiting
  | playing
deriving DecidableEq

/-- A scheduled player input as stored in a room's `inputBuffer` bucket.
The server only inspects `playerId`; the rest of the JSON payload
(`inputType`, `inputData`, `timestamp`) is carried opaquely as `payload`
so that distinct inputs can be told apart. -/
structure PInput where
  playerId : String
  payload : ℕ
deriving DecidableEq

/-- A server room (`this.rooms` entry): `gameState`, `currentFrame`,
`ownerId`, `players` (ids), and `inputBuffer`, a map from target frame to
the list of inputs scheduled for that frame.  The JS `Map` is modelled as
a total function with `[]` for absent keys, which is exactly how
`server.js` reads it (`get(f) || []`, `has`/`set`). -/
structure Room where
  gameState : SGameState
  currentFrame : ℤ
  ownerId : String
  players : List String
  inputBuffer : ℤ → List PInput

/-- Frame payload broadcast by `processFrame`. -/
structure SFrameData where
  frameId : ℤ
  inputs : List PInput
deriving DecidableEq

/-- `startGame` (room-level effect): set `gameState = 'playing'` and
reset `currentFrame` to 0.  The seed derivation, score-history clearing,
start broadcast and delayed loop start act on server-level state outside
the room record. -/
def startGame (room : Room) : Room :=
  { room with gameState := SGameState.playing, currentFrame := 0 }

/-- `handleGameStart`: reject the request unless the requester is the
room owner, otherwise run `startGame`.  Note the source checks only
ownership; it does not test `gameState`. -/
def handleGameStart (room : Room) (requesterId : String) : Room :=
  if requesterId ≠ room.ownerId then room else startGame room

/-- The last-write-wins insertion used by `handlePlayerInput`: replace
the first bucket entry with the same `playerId` (`findIndex` + overwrite),
else append (`push`). -/
def upsertInput : List PInput → PInput → List PInput
  | [], i => [i]
  | x :: xs, i =>
      if x.playerId = i.playerId then i :: xs else x :: upsertInput xs i

/-- Pointwise update of an input-buffer map (JS `Map.set`). -/
def setBucket (buf : ℤ → List PInput) (k : ℤ) (v : List PInput) :
    ℤ → List PInput :=
  fun f => if f = k then v else buf f

/-- `handlePlayerInput`: only in state `'playing'`; the input is
scheduled for `targetFrame = currentFrame + bufferFrames` with
`bufferFrames = 1`, overwriting any earlier input of the same player in
that bucket. -/
def handlePlayerInput (room : Room) (inp : PInput) : Room :=
  if room.gameState ≠ SGameState.playing then room
  else
    let targetFrame := room.currentFrame + 1
    { room with
        inputBuffer :=
          setBucket room.inputBuffer targetFrame
            (upsertInput (room.inputBuffer targetFrame) inp) }

/-- `processFrame`: in state `'playing'`, broadcast
`{frameId = currentFrame, inputs = bucket(currentFrame) or []}`, delete
the bucket at `currentFrame - 10`, and increment `currentFrame`. -/
def processFrame (room : Room) : Room × Option SFrameData :=
  if room.gameState ≠ SGameState.playing then (room, none)
  else
    let fd : SFrameData := ⟨room.currentFrame, room.inputBuffer room.currentFrame⟩
    ({ room with
        inputBuffer := setBucket room.inputBuffer (room.currentFrame - 10) [],
        currentFrame := room.currentFrame + 1 },
      some fd)


theorem upsertInput_filter_self (l : List PInput) (i : PInput)
    (h : (l.filter (fun j => j.playerId = i.playerId)).length ≤ 1) :
    (upsertInput l i).filter (fun j => j.playerId = i.playerId) = [i] := by
  induction l with
  | nil => simp [upsertInput]
  | cons x xs ih =>
      by_cases hx : x.playerId = i.playerId
      · rw [List.filter_cons_of_pos (by simpa using hx)] at h
        rw [List.length_cons] at h
        have hxs : xs.filter (fun j => j.playerId = i.playerId) = [] :=
          List.eq_nil_of_length_eq_zero (by omega)
        rw [upsertInput, if_pos hx, List.filter_cons_of_pos (by simp), hxs]
      · rw [List.filter_cons_of_neg (by simpa using hx)] at h
        rw [upsertInput, if_neg hx, List.filter_cons_of_neg (by simpa using hx)]
        exact ih h

theorem upsertInput_filter_other (l : List PInput) (i : PInput) (q : String)
    (hq : q ≠ i.playerId) :
    (upsertInput l i).filter (fun j => j.playerId = q) =
      l.filter (fun j => j.playerId = q) := by
  induction l with
  | nil =>
      rw [upsertInput]
      simp [List.filter_cons, Ne.symm hq]
  | cons x xs ih =>
      by_cases hx : x.playerId = i.playerId
      · rw [upsertInput, if_pos hx]
        rw [List.filter_cons_of_neg (by simp [hx, Ne.symm hq]),
          List.filter_cons_of_neg (by simp; intro hc; exact hq (hc ▸ hx))]
      · rw [upsertInput, if_neg hx]
        by_cases hxq : x.playerId = q
        · rw [List.filter_cons_of_pos (by simpa using hxq),
            List.filter_cons_of_pos (by simpa using hxq), ih]
        · rw [List.filter_cons_of_neg (by simpa using hxq),
            List.filter_cons_of_neg (by simpa using hxq), ih]

theorem handlePlayerInput_gameState (r : Room) (i : PInput) :
    (handlePlayerInput r i).gameState = r.gameState := by
  unfold handlePlayerInput
  split <;> rfl

theorem handlePlayerInput_currentFrame (r : Room) (i : PInput) :
    (handlePlayerInput r i).currentFrame = r.currentFrame := by
  unfold handlePlayerInput
  split <;> rfl

theorem handlePlayerInput_buffer_target (r : Room) (i : PInput)
    (h : r.gameState = SGameState.playing) :
    (handlePlayerInput r i).inputBuffer (r.currentFrame + 1) =
      upsertInput (r.inputBuffer (r.currentFrame + 1)) i := by
  unfold handlePlayerInput
  rw [if_neg (by simp [h])]
  simp [setBucket]

theorem handlePlayerInput_buffer_other (r : Room) (i : PInput) (f : ℤ)
    (hf : f ≠ r.currentFrame + 1) :
    (handlePlayerInput r i).inputBuffer f = r.inputBuffer f := by
  unfold handlePlayerInput
  split
  · rfl
  · simp [setBucket, hf]

/-- C4: with the room in `'playing'` state at tick `T`, an input is
scheduled into the bucket for target frame `T + 1` (other buckets, the
frame counter and the state are untouched); a second input of the same
player, arriving while the tick is still `T`, leaves exactly that second
input as the player's entry of the bucket; the at-most-one-entry-per-
player property of a bucket is preserved; and `processFrame` broadcasts
precisely the bucket of the frame it executes. -/
theorem handlePlayerInput_schedule (room : Room) (i1 i2 : PInput) (T : ℤ)
    (hplay : room.gameState = SGameState.playing)
    (hT : room.currentFrame = T)
    (hsame : i2.playerId = i1.playerId)
    (hwf : ∀ q, ((room.inputBuffer (T + 1)).filter
      (fun j => j.playerId = q)).length ≤ 1) :
    (handlePlayerInput room i1).inputBuffer (T + 1) =
        upsertInput (room.inputBuffer (T + 1)) i1 ∧
    (∀ f, f ≠ T + 1 →
      (handlePlayerInput room i1).inputBuffer f = room.inputBuffer f) ∧
    (handlePlayerInput room i1).currentFrame = T ∧
    (handlePlayerInput room i1).gameState = SGameState.playing ∧
    ((handlePlayerInput (handlePlayerInput room i1) i2).inputBuffer (T + 1)).filter
        (fun j => j.playerId = i1.playerId) = [i2] ∧
    (∀ q, (((handlePlayerInput room i1).inputBuffer (T + 1)).filter
      (fun j => j.playerId = q)).length ≤ 1) ∧
    (∀ r : Room, r.gameState = SGameState.playing →
      (processFrame r).2 = some ⟨r.currentFrame, r.inputBuffer r.currentFrame⟩) := by
  have hbuf1 : (handlePlayerInput room i1).inputBuffer (T + 1) =
      upsertInput (room.inputBuffer (T + 1)) i1 := by
    have := handlePlayerInput_buffer_target room i1 hplay
    rwa [hT] at this
  have hwf1 : ∀ q, (((handlePlayerInput room i1).inputBuffer (T + 1)).filter
      (fun j => j.playerId = q)).length ≤ 1 := by
    intro q
    rw [hbuf1]
    by_cases hq : q = i1.playerId
    · rw [hq, upsertInput_filter_self _ _ (hwf i1.playerId)]
      simp
    · rw [upsertInput_filter_other _ _ _ hq]
      exact hwf q
  refine ⟨hbuf1, ?_, ?_, ?_, ?_, hwf1, ?_⟩
  · intro f hf
    exact handlePlayerInput_buffer_other room i1 f (hT ▸ hf)
  · rw [handlePlayerInput_currentFrame, hT]
  · rw [handlePlayerInput_gameState, hplay]
  · have hbuf2 : (handlePlayerInput (handlePlayerInput room i1) i2).inputBuffer (T + 1) =
        upsertInput ((handlePlayerInput room i1).inputBuffer (T + 1)) i2 := by
      have := handlePlayerInput_buffer_target (handlePlayerInput room i1) i2
        (by rw [handlePlayerInput_gameState, hplay])
      rwa [handlePlayerInput_currentFrame, hT] at this
    rw [hbuf2]
    have hwfs : (((handlePlayerInput room i1).inputBuffer (T + 1)).filter
        (fun j => j.playerId = i2.playerId)).length ≤ 1 := by
      rw [hsame]
      exact hwf1 i1.playerId
    have := upsertInput_filter_self ((handlePlayerInput room i1).inputBuffer (T + 1)) i2 hwfs
    rwa [hsame] at this
  · intro r hr
    simp [processFrame, hr]

theorem handlePlayerInput_schedule_witness :
    ((Room.mk SGameState.playing 4 "a" ["a", "b"] (fun _ => [])).gameState =
        SGameState.playing ∧
      (Room.mk SGameState.playing 4 "a" ["a", "b"] (fun _ => [])).currentFrame = 4 ∧
      (PInput.mk "b" 1).playerId = (PInput.mk "b" 0).playerId ∧
      (∀ q, (((Room.mk SGameState.playing 4 "a" ["a", "b"] (fun _ => [])).inputBuffer
        (4 + 1)).filter (fun j => j.playerId = q)).length ≤ 1)) ∧
    ((handlePlayerInput (Room.mk SGameState.playing 4 "a" ["a", "b"] (fun _ => []))
        (PInput.mk "b" 0)).inputBuffer (4 + 1) =
        upsertInput ((Room.mk SGameState.playing 4 "a" ["a", "b"]
          (fun _ => [])).inputBuffer (4 + 1)) (PInput.mk "b" 0) ∧
      (∀ f, f ≠ 4 + 1 →
        (handlePlayerInput (Room.mk SGameState.playing 4 "a" ["a", "b"] (fun _ => []))
          (PInput.mk "b" 0)).inputBuffer f =
          (Room.mk SGameState.playing 4 "a" ["a", "b"] (fun _ => [])).inputBuffer f) ∧
      (handlePlayerInput (Room.mk SGameState.playing 4 "a" ["a", "b"] (fun _ => []))
        (PInput.mk "b" 0)).currentFrame = 4 ∧
      (handlePlayerInput (Room.mk SGameState.playing 4 "a" ["a", "b"] (fun _ => []))
        (PInput.mk "b" 0)).gameState = SGameState.playing ∧
      ((handlePlayerInput (handlePlayerInput
          (Room.mk SGameState.playing 4 "a" ["a", "b"] (fun _ => []))
          (PInput.mk "b" 0)) (PInput.mk "b" 1)).inputBuffer (4 + 1)).filter
        (fun j => j.playerId = (PInput.mk "b" 0).playerId) = [PInput.mk "b" 1] ∧
      (∀ q, (((handlePlayerInput (Room.mk SGameState.playing 4 "a" ["a", "b"]
        (fun _ => [])) (PInput.mk "b" 0)).inputBuffer (4 + 1)).filter
        (fun j => j.playerId = q)).length ≤ 1) ∧
      (∀ r : Room, r.gameState = SGameState.playing →
        (processFrame r).2 = some ⟨r.currentFrame, r.inputBuffer r.currentFrame⟩)) :=
  ⟨⟨rfl, rfl, rfl, fun q => by simp⟩,
    handlePlayerInput_schedule (Room.mk SGameState.playing 4 "a" ["a", "b"] (fun _ => []))
      (PInput.mk "b" 0) (PInput.mk "b" 1) 4 rfl rfl rfl (fun q => by simp)⟩

/-- C2 counterexample: `handleGameStart` never inspects `gameState`.  A
room already in `'playing'` state whose owner requests a start is not
rejected: `startGame` runs, resetting `currentFrame` from 7 to 0.  This
refutes the claim that a gameStart request succeeds only when the room
state is WAITING. -/
theorem handleGameStart_accepts_nonwaiting :
    (Room.mk SGameState.playing 7 "alice" ["alice", "bob"] (fun _ => [])).gameState ≠
        SGameState.waiting ∧
    (handleGameStart (Room.mk SGameState.playing 7 "alice" ["alice", "bob"]
      (fun _ => [])) "alice").currentFrame = 0 ∧
    (handleGameStart (Room.mk SGameState.playing 7 "alice" ["alice", "bob"]
      (fun _ => [])) "alice").gameState = SGameState.playing ∧
    handleGameStart (Room.mk SGameState.playing 7 "alice" ["alice", "bob"]
      (fun _ => [])) "alice" ≠
      Room.mk SGameState.playing 7 "alice" ["alice", "bob"] (fun _ => []) := by
  refine ⟨by simp, rfl, rfl, ?_⟩
  intro h
  have := congrArg Room.currentFrame h
  simp [handleGameStart, startGame] at this

/-- C2 (amended): a gameStart request succeeds exactly when the
requesting player is the room owner — the server performs no WAITING
check (only the client UI does).  On success the room state becomes
PLAYING and `currentFrame` is reset to 0; a non-owner's request leaves
the room entirely unchanged. -/
theorem handleGameStart_owner_only (room : Room) (pid : String) :
    (pid ≠ room.ownerId → handleGameStart room pid = room) ∧
    (pid = room.ownerId →
      (handleGameStart room pid).gameState = SGameState.playing ∧
      (handleGameStart room pid).currentFrame = 0 ∧
      (handleGameStart room pid).ownerId = room.ownerId ∧
      (handleGameStart room pid).players = room.players) := by
  constructor
  · intro h
    simp [handleGameStart, h]
  · intro h
    simp [handleGameStart, h, startGame]

theorem handleGameStart_owner_only_witness :
    ("bob" ≠ (Room.mk SGameState.waiting 3 "alice" ["alice", "bob"]
        (fun _ => [])).ownerId ∧
      handleGameStart (Room.mk SGameState.waiting 3 "alice" ["alice", "bob"]
        (fun _ => [])) "bob" =
        Room.mk SGameState.waiting 3 "alice" ["alice", "bob"] (fun _ => [])) ∧
    ("alice" = (Room.mk SGameState.waiting 3 "alice" ["alice", "bob"]
        (fun _ => [])).ownerId ∧
      (handleGameStart (Room.mk SGameState.waiting 3 "alice" ["alice", "bob"]
        (fun _ => [])) "alice").gameState = SGameState.playing ∧
      (handleGameStart (Room.mk SGameState.waiting 3 "alice" ["alice", "bob"]
        (fun _ => [])) "alice").currentFrame = 0) :=
  ⟨⟨by simp,
      (handleGameStart_owner_only (Room.mk SGameState.waiting 3 "alice"
        ["alice", "bob"] (fun _ => [])) "bob").1 (by simp)⟩,
    ⟨rfl,
      ((handleGameStart_owner_only (Room.mk SGameState.waiting 3 "alice"
        ["alice", "bob"] (fun _ => [])) "alice").2 rfl).1,
      (((handleGameStart_owner_only (Room.mk SGameState.waiting 3 "alice"
        ["alice", "bob"] (fun _ => [])) "alice").2 rfl).2).1⟩⟩

/-! ### Score ledger (`server.js`, `handlePlayerScore`) -/

/-- A `playerScore` message body. -/
structure ScoreEvent where
  eventId : String
  frameId : ℤ
  killerPlayerId : String
  victimPlayerId : String
  score : ℤ
deriving DecidableEq

/-- The `scoreUpdate` broadcast payload produced by `handlePlayerScore`
(the fields echoed from the event plus the new canonical total). -/
structure ScoreUpdate where
  eventId : String
  killerPlayerId : String
  score : ℤ
  totalScore : ℤ
deriving DecidableEq

/-- Server ledger state: `processedScoreEvents` (a JS `Set`, insertion
ordered, modelled as a list without the claim of freedom from duplicates
— `handlePlayerScore` only appends ids it has just checked to be absent)
and `playerScores` (playerId → accumulated total, absent = 0). -/
structure ScoreState where
  processedScoreEvents : List String
  playerScores : List (String × ℤ)
deriving DecidableEq

/-- `this.playerScores.get(p) || 0`. -/
def getScore (scores : List (String × ℤ)) (p : String) : ℤ :=
  match scores.lookup p with
  | some v => v
  | none => 0

/-- `this.playerScores.set(p, v)` (overwrite or insert). -/
def setScore : List (String × ℤ) → String → ℤ → List (String × ℤ)
  | [], p, v => [(p, v)]
  | (q, w) :: rest, p, v =>
      if q = p then (q, v) :: rest else (q, w) :: setScore rest p v

/-- `handlePlayerScore`: drop the event if its id was already processed
(no ledger change, no broadcast); otherwise record the id, trim the
recent-id set to its most recent 500 entries once its size exceeds 1000
(`Array.from` preserves insertion order and `slice(-500)` keeps the
tail), add the score delta, and broadcast the new total. -/
def handlePlayerScore (st : ScoreState) (e : ScoreEvent) :
    ScoreState × Option ScoreUpdate :=
  if e.eventId ∈ st.processedScoreEvents then (st, none)
  else
    let evs := st.processedScoreEvents ++ [e.eventId]
    let evs' := if 1000 < evs.length then evs.drop (evs.length - 500) else evs
    let current := getScore st.playerScores e.killerPlayerId
    (⟨evs', setScore st.playerScores e.killerPlayerId (current + e.score)⟩,
      some ⟨e.eventId, e.killerPlayerId, e.score, current + e.score⟩)

theorem getScore_setScore_self (scores : List (String × ℤ)) (p : String) (v : ℤ) :
    getScore (setScore scores p v) p = v := by
  induction scores with
  | nil => simp [setScore, getScore, List.lookup]
  | cons x rest ih =>
      obtain ⟨q, w⟩ := x
      by_cases hq : q = p
      · simp [setScore, hq, getScore, List.lookup]
      · have hpq : (p == q) = false := beq_eq_false_iff_ne.mpr (Ne.symm hq)
        simpa [setScore, hq, getScore, List.lookup, hpq] using ih

theorem mem_of_append_singleton_drop (l : List String) (x : String) (k : ℕ)
    (hk : k ≤ l.length) : x ∈ (l ++ [x]).drop k := by
  rw [List.drop_append_of_le_length hk]
  simp

theorem eventId_mem_after_handle (st : ScoreState) (e : ScoreEvent)
    (h : e.eventId ∉ st.processedScoreEvents) :
    e.eventId ∈ (handlePlayerScore st e).1.processedScoreEvents := by
  simp only [handlePlayerScore, if_neg h]
  split
  · exact mem_of_append_singleton_drop _ _ _ (by simp)
  · simp

/-- C5: a `playerScore` event whose id was already applied leaves the
ledger untouched and triggers no `scoreUpdate` broadcast; submitting the
same fresh event twice changes the killer's total exactly once (the
first application broadcasts the new total, the second is a no-op); the
recent-id set never grows past 1000 entries, and the moment the cap is
exceeded it is trimmed to its most recent 500 ids. -/
theorem handlePlayerScore_idempotent (st : ScoreState) (e : ScoreEvent)
    (hfresh : e.eventId ∉ st.processedScoreEvents) :
    (∀ st2 : ScoreState, e.eventId ∈ st2.processedScoreEvents →
      handlePlayerScore st2 e = (st2, none)) ∧
    handlePlayerScore (handlePlayerScore st e).1 e =
      ((handlePlayerScore st e).1, none) ∧
    getScore (handlePlayerScore (handlePlayerScore st e).1 e).1.playerScores
        e.killerPlayerId =
      getScore st.playerScores e.killerPlayerId + e.score ∧
    (handlePlayerScore st e).2 = some ⟨e.eventId, e.killerPlayerId, e.score,
      getScore st.playerScores e.killerPlayerId + e.score⟩ ∧
    (handlePlayerScore st e).1.processedScoreEvents.length ≤ 1000 ∧
    (st.processedScoreEvents.length = 1000 →
      (handlePlayerScore st e).1.processedScoreEvents =
        (st.processedScoreEvents ++ [e.eventId]).drop 501 ∧
      (handlePlayerScore st e).1.processedScoreEvents.length = 500) := by
  have hdup : ∀ st2 : ScoreState, e.eventId ∈ st2.processedScoreEvents →
      handlePlayerScore st2 e = (st2, none) := by
    intro st2 h2
    simp [handlePlayerScore, h2]
  have hsecond : handlePlayerScore (handlePlayerScore st e).1 e =
      ((handlePlayerScore st e).1, none) :=
    hdup _ (eventId_mem_after_handle st e hfresh)
  refine ⟨hdup, hsecond, ?_, ?_, ?_, ?_⟩
  · rw [hsecond]
    simp only [handlePlayerScore, if_neg hfresh]
    exact getScore_setScore_self _ _ _
  · simp [handlePlayerScore, hfresh]
  · simp only [handlePlayerScore, if_neg hfresh]
    split
    · rename_i hlen
      rw [List.length_drop]
      omega
    · rename_i hlen
      omega
  · intro h1000
    have hlen : 1000 < (st.processedScoreEvents ++ [e.eventId]).length := by
      simp [h1000]
    constructor
    · simp only [handlePlayerScore, if_neg hfresh, if_pos hlen]
      have : (st.processedScoreEvents ++ [e.eventId]).length - 500 = 501 := by
        simp [h1000]
      rw [this]
    · simp only [handlePlayerScore, if_neg hfresh, if_pos hlen]
      rw [List.length_drop]
      simp [h1000]

theorem handlePlayerScore_idempotent_witness :
    ((ScoreEvent.mk "ev1" 2 "alice" "bob" 50).eventId ∉
        (ScoreState.mk [] []).processedScoreEvents) ∧
    ((∀ st2 : ScoreState, (ScoreEvent.mk "ev1" 2 "alice" "bob" 50).eventId ∈
        st2.processedScoreEvents →
        handlePlayerScore st2 (ScoreEvent.mk "ev1" 2 "alice" "bob" 50) = (st2, none)) ∧
      handlePlayerScore (handlePlayerScore (ScoreState.mk [] [])
          (ScoreEvent.mk "ev1" 2 "alice" "bob" 50)).1
          (ScoreEvent.mk "ev1" 2 "alice" "bob" 50) =
        ((handlePlayerScore (ScoreState.mk [] [])
          (ScoreEvent.mk "ev1" 2 "alice" "bob" 50)).1, none) ∧
      getScore (handlePlayerScore (handlePlayerScore (ScoreState.mk [] [])
          (ScoreEvent.mk "ev1" 2 "alice" "bob" 50)).1
          (ScoreEvent.mk "ev1" 2 "alice" "bob" 50)).1.playerScores
          (ScoreEvent.mk "ev1" 2 "alice" "bob" 50).killerPlayerId =
        getScore (ScoreState.mk [] []).playerScores
          (ScoreEvent.mk "ev1" 2 "alice" "bob" 50).killerPlayerId + 
          (ScoreEvent.mk "ev1" 2 "alice" "bob" 50).score ∧
      (handlePlayerScore (ScoreState.mk [] [])
          (ScoreEvent.mk "ev1" 2 "alice" "bob" 50)).2 =
        some ⟨"ev1", "alice", 50,
          getScore (ScoreState.mk [] []).playerScores "alice" + 50⟩ ∧
      (handlePlayerScore (ScoreState.mk [] [])
          (ScoreEvent.mk "ev1" 2 "alice" "bob" 50)).1.processedScoreEvents.length ≤
        1000 ∧
      ((ScoreState.mk [] ([] : List (String × ℤ))).processedScoreEvents.length = 1000 →
        (handlePlayerScore (ScoreState.mk [] [])
            (ScoreEvent.mk "ev1" 2 "alice" "bob" 50)).1.processedScoreEvents =
          ((ScoreState.mk [] ([] : List (String × ℤ))).processedScoreEvents ++
            ["ev1"]).drop 501 ∧
        (handlePlayerScore (ScoreState.mk [] [])
          (ScoreEvent.mk "ev1" 2 "alice" "bob" 50)).1.processedScoreEvents.length =
          500)) :=
  ⟨by simp,
    handlePlayerScore_idempotent (ScoreState.mk [] [])
      (ScoreEvent.mk "ev1" 2 "alice" "bob" 50) (by simp)⟩

/-! ### Client frame player (`FrameSyncManager.ts`) -/

/-- Client frame-sync state: `_currentFrame`, the jitter buffer's key
set (frame ids with buffered `FrameData`; the payloads play no role in
the synchronization logic), `_isSynchronized`, `_isRunning`. -/
structure FSState where
  currentFrame : ℤ
  frameBuffer : Finset ℤ
  isSynchronized : Bool
  isRunning : Bool
deriving DecidableEq

/-- Fuel-bounded form of the `while (buffer.has(frame))` scan shared by
`onFrameData` and `getConsecutiveFramesCount`.  The JS loop always stops
after at most `buffer.size` iterations (the visited frames are distinct
members), so any fuel above the buffer's cardinality computes the exact
run length. -/
def consecAux (buf : Finset ℤ) : ℕ → ℤ → ℕ
  | 0, _ => 0
  | fuel + 1, f => if f ∈ buf then consecAux buf fuel (f + 1) + 1 else 0

/-- `getConsecutiveFramesCount`: number of consecutive buffered frames
starting at `start`. -/
def getConsecutiveFramesCount (buf : Finset ℤ) (start : ℤ) : ℕ :=
  consecAux buf (buf.card + 1) start

/-- `cleanupOldFrames`: evict buffered frames older than
`currentFrame - 10`. -/
def cleanupOldFrames (st : FSState) : FSState :=
  { st with frameBuffer := st.frameBuffer.filter (fun f => st.currentFrame - 10 ≤ f) }

/-- `Math.min(...this._frameBuffer.keys())` right after inserting
`frameId` (the buffer is nonempty at that point). -/
def minFrameOf (st : FSState) (frameId : ℤ) : ℤ :=
  (insert frameId st.frameBuffer).min' ⟨frameId, Finset.mem_insert_self frameId st.frameBuffer⟩

/-- `onFrameData`: insert the received frame id; if not yet synchronized
and the consecutive run starting at the minimum buffered id has reached
`bufferFrames`, jump `currentFrame` to that minimum and set the
synchronized flag; finally clean up old frames. -/
def onFrameData (bufferFrames : ℕ) (st : FSState) (frameId : ℤ) : FSState :=
  let buf := insert frameId st.frameBuffer
  let st1 :=
    if st.isSynchronized then { st with frameBuffer := buf }
    else
      if bufferFrames ≤ getConsecutiveFramesCount buf (minFrameOf st frameId) then
        FSState.mk (minFrameOf st frameId) buf true st.isRunning
      else { st with frameBuffer := buf }
  cleanupOldFrames st1

/-- The frame-execution loop body of `frameUpdate`: run `n` frames; a
missing frame takes the `console.error` branch (returned as `true`) and
breaks.  Executing a frame only advances `currentFrame` as far as this
state is concerned (the per-entity callbacks live outside `FSState`). -/
def frameUpdateLoop : ℕ → FSState → FSState × Bool
  | 0, st => (st, false)
  | n + 1, st =>
      if st.currentFrame ∈ st.frameBuffer then
        frameUpdateLoop n { st with currentFrame := st.currentFrame + 1 }
      else (st, true)

/-- `frameUpdate`: do nothing unless running and synchronized; pick 2, 1
or 0 frames to execute by comparing the consecutive-frame count against
`jitterBufferFrames + 2` and `jitterBufferFrames`; then run the loop. -/
def frameUpdate (jitterBufferFrames : ℕ) (st : FSState) : FSState × Bool :=
  if st.isRunning = false ∨ st.isSynchronized = false then (st, false)
  else
    let consecutiveFrames := getConsecutiveFramesCount st.frameBuffer st.currentFrame
    let framesToRun : ℕ :=
      if jitterBufferFrames + 2 < consecutiveFrames then 2
      else if jitterBufferFrames < consecutiveFrames then 1
      else 0
    frameUpdateLoop framesToRun st

theorem consecAux_mem (buf : Finset ℤ) (fuel : ℕ) :
    ∀ (start : ℤ) (i : ℕ), i < consecAux buf fuel start → start + i ∈ buf := by
  induction fuel with
  | zero => intro start i hi; simp [consecAux] at hi
  | succ n ih =>
      intro start i hi
      rw [consecAux] at hi
      by_cases hs : start ∈ buf
      · rw [if_pos hs] at hi
        match i with
        | 0 => simpa using hs
        | j + 1 =>
            have hj : j < consecAux buf n (start + 1) := by omega
            have := ih (start + 1) j hj
            have heq : start + ((j : ℤ) + 1) = start + 1 + j := by ring
            push_cast
            rw [heq]
            exact this
      · rw [if_neg hs] at hi
        omega

theorem consecAux_stop (buf : Finset ℤ) (fuel : ℕ) :
    ∀ start : ℤ, consecAux buf fuel start < fuel →
      start + (consecAux buf fuel start : ℤ) ∉ buf := by
  induction fuel with
  | zero => intro start h; omega
  | succ n ih =>
      intro start h
      rw [consecAux] at h ⊢
      by_cases hs : start ∈ buf
      · rw [if_pos hs] at h ⊢
        have := ih (start + 1) (by omega)
        have heq : start + ((consecAux buf n (start + 1) : ℤ) + 1) =
            start + 1 + (consecAux buf n (start + 1) : ℤ) := by ring
        push_cast
        rw [heq]
        exact this
      · rw [if_neg hs] at h ⊢
        simpa using hs

theorem consecAux_le_card (buf : Finset ℤ) (fuel : ℕ) (start : ℤ) :
    consecAux buf fuel start ≤ buf.card := by
  have hinj : Function.Injective (fun k : ℕ => start + (k : ℤ)) := by
    intro a b hab
    simp only at hab
    omega
  have hsub : (Finset.range (consecAux buf fuel start)).image
      (fun k : ℕ => start + (k : ℤ)) ⊆ buf := by
    intro x hx
    simp only [Finset.mem_image, Finset.mem_range] at hx
    obtain ⟨k, hk, rfl⟩ := hx
    exact consecAux_mem buf fuel start k hk
  calc consecAux buf fuel start
      = ((Finset.range (consecAux buf fuel start)).image
          (fun k : ℕ => start + (k : ℤ))).card := by
        rw [Finset.card_image_of_injective _ hinj, Finset.card_range]
    _ ≤ buf.card := Finset.card_le_card hsub

theorem getConsecutiveFramesCount_mem (buf : Finset ℤ) (start : ℤ) (i : ℕ)
    (hi : i < getConsecutiveFramesCount buf start) : start + i ∈ buf :=
  consecAux_mem buf (buf.card + 1) start i hi

theorem getConsecutiveFramesCount_stop (buf : Finset ℤ) (start : ℤ) :
    start + (getConsecutiveFramesCount buf start : ℤ) ∉ buf :=
  consecAux_stop buf (buf.card + 1) start
    (Nat.lt_succ_of_le (consecAux_le_card buf (buf.card + 1) start))

/-- C6: while unsynchronized, receiving a frame synchronizes exactly
when the run of consecutive buffered ids starting at the minimum
buffered id (the first two conjuncts characterize
`getConsecutiveFramesCount` as that run's length) reaches the configured
depth, and then `currentFrame` is set to the run's start; with depth 3,
feeding frames 5, 6, 8 into a fresh client leaves it unsynchronized,
while feeding 5, 6, 7 synchronizes it with `currentFrame = 5`. -/
theorem onFrameData_sync_gating (D : ℕ) (st : FSState) (f : ℤ)
    (hsync : st.isSynchronized = false) :
    (∀ i : ℕ,
      i < getConsecutiveFramesCount (insert f st.frameBuffer) (minFrameOf st f) →
      minFrameOf st f + i ∈ insert f st.frameBuffer) ∧
    minFrameOf st f +
        (getConsecutiveFramesCount (insert f st.frameBuffer) (minFrameOf st f) : ℤ) ∉
      insert f st.frameBuffer ∧
    ((onFrameData D st f).isSynchronized = true ↔
      D ≤ getConsecutiveFramesCount (insert f st.frameBuffer) (minFrameOf st f)) ∧
    (D ≤ getConsecutiveFramesCount (insert f st.frameBuffer) (minFrameOf st f) →
      (onFrameData D st f).currentFrame = minFrameOf st f) ∧
    (onFrameData 3 (onFrameData 3 (onFrameData 3
      (FSState.mk 0 ∅ false true) 5) 6) 8).isSynchronized = false ∧
    (onFrameData 3 (onFrameData 3 (onFrameData 3
      (FSState.mk 0 ∅ false true) 5) 6) 7).isSynchronized = true ∧
    (onFrameData 3 (onFrameData 3 (onFrameData 3
      (FSState.mk 0 ∅ false true) 5) 6) 7).currentFrame = 5 := by
  refine ⟨getConsecutiveFramesCount_mem _ _, getConsecutiveFramesCount_stop _ _,
    ?_, ?_, by decide, by decide, by decide⟩
  · by_cases hD : D ≤ getConsecutiveFramesCount (insert f st.frameBuffer) (minFrameOf st f)
    · simp [onFrameData, cleanupOldFrames, hsync, hD]
    · simp [onFrameData, cleanupOldFrames, hsync, hD]
  · intro hD
    simp [onFrameData, cleanupOldFrames, hsync, hD]

theorem onFrameData_sync_gating_witness :
    ((FSState.mk 0 ∅ false true).isSynchronized = false) ∧
    ((∀ i : ℕ,
        i < getConsecutiveFramesCount (insert 5 (FSState.mk 0 ∅ false true).frameBuffer)
          (minFrameOf (FSState.mk 0 ∅ false true) 5) →
        minFrameOf (FSState.mk 0 ∅ false true) 5 + i ∈
          insert 5 (FSState.mk 0 ∅ false true).frameBuffer) ∧
      minFrameOf (FSState.mk 0 ∅ false true) 5 +
          (getConsecutiveFramesCount (insert 5 (FSState.mk 0 ∅ false true).frameBuffer)
            (minFrameOf (FSState.mk 0 ∅ false true) 5) : ℤ) ∉
        insert 5 (FSState.mk 0 ∅ false true).frameBuffer ∧
      ((onFrameData 3 (FSState.mk 0 ∅ false true) 5).isSynchronized = true ↔
        3 ≤ getConsecutiveFramesCount (insert 5 (FSState.mk 0 ∅ false true).frameBuffer)
          (minFrameOf (FSState.mk 0 ∅ false true) 5)) ∧
      (3 ≤ getConsecutiveFramesCount (insert 5 (FSState.mk 0 ∅ false true).frameBuffer)
          (minFrameOf (FSState.mk 0 ∅ false true) 5) →
        (onFrameData 3 (FSState.mk 0 ∅ false true) 5).currentFrame =
          minFrameOf (FSState.mk 0 ∅ false true) 5) ∧
      (onFrameData 3 (onFrameData 3 (onFrameData 3
        (FSState.mk 0 ∅ false true) 5) 6) 8).isSynchronized = false ∧
      (onFrameData 3 (onFrameData 3 (onFrameData 3
        (FSState.mk 0 ∅ false true) 5) 6) 7).isSynchronized = true ∧
      (onFrameData 3 (onFrameData 3 (onFrameData 3
        (FSState.mk 0 ∅ false true) 5) 6) 7).currentFrame = 5) :=
  ⟨rfl, onFrameData_sync_gating 3 (FSState.mk 0 ∅ false true) 5 rfl⟩

theorem frameUpdateLoop_no_error (n : ℕ) (st : FSState)
    (h : ∀ i : ℕ, i < n → st.currentFrame + i ∈ st.frameBuffer) :
    (frameUpdateLoop n st).2 = false := by
  induction n generalizing st with
  | zero => rfl
  | succ m ih =>
      have h0 : st.currentFrame ∈ st.frameBuffer := by
        simpa using h 0 (Nat.succ_pos m)
      rw [frameUpdateLoop, if_pos h0]
      apply ih
      intro i hi
      have := h (i + 1) (by omega)
      have heq : st.currentFrame + ((i : ℤ) + 1) = st.currentFrame + 1 + i := by ring
      push_cast at this
      rw [heq] at this
      exact this

/-- C10: whenever the client tick runs while running and synchronized,
the number of frames it chooses to execute (0, 1 or 2, by comparing the
consecutive-buffered count against the jitter thresholds) never exceeds
the count of consecutive frames buffered from `currentFrame`; hence
`getFrameData` succeeds at every execution step and the
missing-frame error branch of `frameUpdate` is never taken. -/
theorem frameUpdate_error_unreachable (jitterBufferFrames : ℕ) (st : FSState) :
    (if jitterBufferFrames + 2 <
        getConsecutiveFramesCount st.frameBuffer st.currentFrame then 2
      else if jitterBufferFrames <
        getConsecutiveFramesCount st.frameBuffer st.currentFrame then 1
      else 0) ≤ getConsecutiveFramesCount st.frameBuffer st.currentFrame ∧
    (frameUpdate jitterBufferFrames st).2 = false := by
  constructor
  · split
    · omega
    · split
      · omega
      · omega
  · unfold frameUpdate
    split
    · rfl
    · apply frameUpdateLoop_no_error
      intro i hi
      apply getConsecutiveFramesCount_mem
      have hk : (if jitterBufferFrames + 2 <
          getConsecutiveFramesCount st.frameBuffer st.currentFrame then 2
        else if jitterBufferFrames <
          getConsecutiveFramesCount st.frameBuffer st.currentFrame then 1
        else 0) ≤ getConsecutiveFramesCount st.frameBuffer st.currentFrame := by
        split
        · omega
        · split
          · omega
          · omega
      omega

/-! ### Entity simulation (`Ball.ts`) -/

/-- `Math.round` on an exact real input (the radii go through `Math.PI`
and `Math.sqrt`, so they are modelled as reals). -/
noncomputable def fromFloatR (x : ℝ) : ℤ := ⌊x * 65536 + 1/2⌋

/-- A client input as consumed by `Ball.processPlayerInput`: the MOVE
payload is the joystick direction vector (its length encodes the speed
ratio), STOP carries no payload; SKILL exists in the enum but has no
case in the `switch`. -/
inductive InputKind where
  | move (dx dy : ℝ)
  | stop
  | skill

/-- A `PlayerInput` as seen by the ball (id plus typed payload). -/
structure CInput where
  playerId : String
  kind : InputKind

/-- Entity state of `Ball`: float radius and `maxSpeed` (JS doubles,
modelled as reals), the Q16.16 `_radius_fp`, fixed-point `_position` and
`_velocity`, and the alive flag.  The render-interpolation fields
(`_previousPosition`, `_renderPosition`, timers) belong to the excluded
presentation layer. -/
structure BallS where
  playerId : String
  radius : ℝ
  maxSpeed : ℝ
  radiusFp : ℤ
  pos : FixedVec2
  vel : FixedVec2
  isAlive : Bool

/-- `handleStopInput`: zero the velocity. -/
def handleStopInput (b : BallS) : BallS := { b with vel := ⟨0, 0⟩ }

/-- `handleMoveInput`: normalize the direction, clamp the speed ratio to
1, scale by `maxSpeed`, convert to fixed point.  A zero-length direction
is treated as STOP (the null-payload guard of the source cannot arise in
this typed model). -/
noncomputable def handleMoveInput (b : BallS) (dx dy : ℝ) : BallS :=
  let directionLength := Real.sqrt (dx * dx + dy * dy)
  if directionLength ≤ 0 then handleStopInput b
  else
    let speed := b.maxSpeed * min directionLength 1
    let vel0 := FixedVec2.mk (fromFloatR (dx / directionLength))
      (fromFloatR (dy / directionLength))
    { b with vel := vel0.multiplyScalar (fromFloatR speed) }

/-- `processPlayerInput` (the `switch` on `inputType`; SKILL has no
case, hence no effect). -/
noncomputable def processPlayerInput (b : BallS) (i : CInput) : BallS :=
  match i.kind with
  | InputKind.move dx dy => handleMoveInput b dx dy
  | InputKind.stop => handleStopInput b
  | InputKind.skill => b

/-- `checkBoundaries`: clamp the position to the radius-adjusted arena
edge and scale the crossed component of the velocity by `-0.8` (the
bounds derive from `gameAreaWidth`/`gameAreaHeight`). -/
def checkBoundaries (W H : ℚ) (b : BallS) : BallS :=
  let left := fromFloat (-(W / 2))
  let right := fromFloat (W / 2)
  let top := fromFloat (H / 2)
  let bottom := fromFloat (-(H / 2))
  let bounce := fromFloat (-0.8 : ℚ)
  let b1 :=
    if b.pos.x - b.radiusFp < left then
      { b with
          pos := FixedVec2.mk (left + b.radiusFp) b.pos.y,
          vel := FixedVec2.mk (fMul b.vel.x bounce) b.vel.y }
    else if right < b.pos.x + b.radiusFp then
      { b with
          pos := FixedVec2.mk (right - b.radiusFp) b.pos.y,
          vel := FixedVec2.mk (fMul b.vel.x bounce) b.vel.y }
    else b
  if top < b1.pos.y + b1.radiusFp then
    { b1 with
        pos := FixedVec2.mk b1.pos.x (top - b1.radiusFp),
        vel := FixedVec2.mk b1.vel.x (fMul b1.vel.y bounce) }
  else if b1.pos.y - b1.radiusFp < bottom then
    { b1 with
        pos := FixedVec2.mk b1.pos.x (bottom + b1.radiusFp),
        vel := FixedVec2.mk b1.vel.x (fMul b1.vel.y bounce) }
  else b1

/-- `updatePhysics`: integrate `position += velocity * dt` in fixed
point, then run the boundary check. -/
def updatePhysics (W H : ℚ) (dtFp : ℤ) (b : BallS) : BallS :=
  checkBoundaries W H { b with pos := b.pos.add (b.vel.multiplyScalar dtFp) }

/-- `processFrameData`: look up this ball's input in the frame's input
list by `playerId`; apply it if present (absence leaves the velocity as
it was); then update physics with the fixed-point tick duration. -/
noncomputable def processFrameData (W H : ℚ) (b : BallS) (inputs : List CInput)
    (dt : ℚ) : BallS :=
  let dtFp := fromFloat dt
  let b1 :=
    match inputs.find? (fun i => i.playerId == b.playerId) with
    | some i => processPlayerInput b i
    | none => b
  updatePhysics W H dtFp b1

/-- `checkCollisionWith`: both balls alive and fixed-point squared
center distance strictly below the fixed-point squared radius sum. -/
def checkCollisionWith (a b : BallS) : Bool :=
  if !a.isAlive || !b.isAlive then false
  else
    let dx := a.pos.x - b.pos.x
    let dy := a.pos.y - b.pos.y
    let distanceSquared := fMul dx dx + fMul dy dy
    let minDistance := a.radiusFp + b.radiusFp
    decide (distanceSquared < fMul minDistance minDistance)

/-- `consumeBall`: award `floor(victimRadius * 2)` points, grow the
consumer so the new area is `myArea + 0.8 * targetArea`, refresh
`_radius_fp`, and mark the victim dead.  Returns (consumer, victim,
awarded score). -/
noncomputable def consumeBall (b target : BallS) : BallS × BallS × Option ℤ :=
  if target.isAlive = false then (b, target, none)
  else
    let score : ℤ := ⌊target.radius * 2⌋
    let myArea := Real.pi * b.radius * b.radius
    let targetArea := Real.pi * target.radius * target.radius
    let newArea := myArea + targetArea * 0.8
    let newRadius := Real.sqrt (newArea / Real.pi)
    ({ b with
        radius := newRadius,
        radiusFp := fromFloatR newRadius },
      { target with isAlive := false }, some score)

/-- `handleCollisionWith`: on overlap the strictly larger radius
consumes the smaller; equal radii pass through unchanged.  Returns the
two updated balls (same order as the arguments) and the score event
payload if a consumption happened. -/
noncomputable def handleCollisionWith (a b : BallS) : BallS × BallS × Option ℤ :=
  if checkCollisionWith a b = false then (a, b, none)
  else if b.radius < a.radius then consumeBall a b
  else if a.radius < b.radius then
    let r := consumeBall b a
    (r.2.1, r.1, r.2.2)
  else (a, b, none)

/-- The per-frame simulation pass of `GameManager.onFrameUpdate`: only
living balls receive `processFrameData`. -/
noncomputable def simulatePass (W H : ℚ) (balls : List BallS)
    (inputs : List CInput) (dt : ℚ) : List BallS :=
  balls.map (fun b => if b.isAlive then processFrameData W H b inputs dt else b)

/-- C3: when a living ball consumes a strictly smaller living ball that
overlaps it (fixed-point squared center distance below the squared
radius sum), the consumer's new radius satisfies
`r'^2 = r1^2 + 0.8 * r2^2` (exactly, in the real-valued model of the
float computation `sqrt((pi*r1^2 + 0.8*pi*r2^2)/pi)`), the awarded score
is `floor(victimRadius * 2)`, the victim's alive flag becomes false, and
a dead ball collides with nothing and is skipped by the per-frame
simulation pass. -/
theorem consumeBall_conservation (a b : BallS)
    (_ha : a.isAlive = true) (hb : b.isAlive = true)
    (hr : b.radius < a.radius)
    (hc : checkCollisionWith a b = true) :
    (handleCollisionWith a b).1.radius ^ 2 = a.radius ^ 2 + 0.8 * b.radius ^ 2 ∧
    (handleCollisionWith a b).2.2 = some ⌊b.radius * 2⌋ ∧
    (handleCollisionWith a b).2.1.isAlive = false ∧
    (∀ c : BallS, checkCollisionWith (handleCollisionWith a b).2.1 c = false) ∧
    (∀ c : BallS, checkCollisionWith c (handleCollisionWith a b).2.1 = false) ∧
    (∀ (W H : ℚ) (inputs : List CInput) (dt : ℚ),
      simulatePass W H [(handleCollisionWith a b).2.1] inputs dt =
        [(handleCollisionWith a b).2.1]) := by
  have hcb : handleCollisionWith a b =
      ({ a with
          radius := Real.sqrt ((Real.pi * a.radius * a.radius +
            Real.pi * b.radius * b.radius * 0.8) / Real.pi),
          radiusFp := fromFloatR (Real.sqrt ((Real.pi * a.radius * a.radius +
            Real.pi * b.radius * b.radius * 0.8) / Real.pi)) },
        { b with isAlive := false }, some ⌊b.radius * 2⌋) := by
    rw [handleCollisionWith, if_neg (by simp [hc]), if_pos hr, consumeBall,
      if_neg (by simp [hb])]
  have harea : (0 : ℝ) ≤ (Real.pi * a.radius * a.radius +
      Real.pi * b.radius * b.radius * 0.8) / Real.pi := by
    have h1 : (0 : ℝ) ≤ Real.pi * a.radius * a.radius +
        Real.pi * b.radius * b.radius * 0.8 := by
      have := mul_self_nonneg a.radius
      have := mul_self_nonneg b.radius
      nlinarith [Real.pi_pos]
    positivity
  refine ⟨?_, by rw [hcb], by rw [hcb], ?_, ?_, ?_⟩
  · rw [hcb]
    show Real.sqrt ((Real.pi * a.radius * a.radius +
      Real.pi * b.radius * b.radius * 0.8) / Real.pi) ^ 2 =
      a.radius ^ 2 + 0.8 * b.radius ^ 2
    rw [Real.sq_sqrt harea]
    field_simp
    ring
  · intro c
    rw [hcb]
    simp [checkCollisionWith]
  · intro c
    rw [hcb]
    simp [checkCollisionWith]
  · intro W H inputs dt
    rw [hcb]
    simp [simulatePass]

theorem consumeBall_conservation_witness :
    ((BallS.mk "A" 4 200 262144 (FixedVec2.mk 0 0) (FixedVec2.mk 0 0) true).isAlive
        = true ∧
      (BallS.mk "B" 3 200 196608 (FixedVec2.mk 100 0) (FixedVec2.mk 0 0) true).isAlive
        = true ∧
      (BallS.mk "B" 3 200 196608 (FixedVec2.mk 100 0) (FixedVec2.mk 0 0) true).radius <
        (BallS.mk "A" 4 200 262144 (FixedVec2.mk 0 0) (FixedVec2.mk 0 0) true).radius ∧
      checkCollisionWith
        (BallS.mk "A" 4 200 262144 (FixedVec2.mk 0 0) (FixedVec2.mk 0 0) true)
        (BallS.mk "B" 3 200 196608 (FixedVec2.mk 100 0) (FixedVec2.mk 0 0) true) =
        true) ∧
    ((handleCollisionWith
        (BallS.mk "A" 4 200 262144 (FixedVec2.mk 0 0) (FixedVec2.mk 0 0) true)
        (BallS.mk "B" 3 200 196608 (FixedVec2.mk 100 0) (FixedVec2.mk 0 0) true)).1.radius
          ^ 2 =
        (BallS.mk "A" 4 200 262144 (FixedVec2.mk 0 0) (FixedVec2.mk 0 0) true).radius
          ^ 2 +
        0.8 * (BallS.mk "B" 3 200 196608 (FixedVec2.mk 100 0) (FixedVec2.mk 0 0)
          true).radius ^ 2 ∧
      (handleCollisionWith
        (BallS.mk "A" 4 200 262144 (FixedVec2.mk 0 0) (FixedVec2.mk 0 0) true)
        (BallS.mk "B" 3 200 196608 (FixedVec2.mk 100 0) (FixedVec2.mk 0 0) true)).2.2 =
        some ⌊(BallS.mk "B" 3 200 196608 (FixedVec2.mk 100 0) (FixedVec2.mk 0 0)
          true).radius * 2⌋ ∧
      (handleCollisionWith
        (BallS.mk "A" 4 200 262144 (FixedVec2.mk 0 0) (FixedVec2.mk 0 0) true)
        (BallS.mk "B" 3 200 196608 (FixedVec2.mk 100 0) (FixedVec2.mk 0 0)
          true)).2.1.isAlive = false ∧
      (∀ c : BallS, checkCollisionWith (handleCollisionWith
        (BallS.mk "A" 4 200 262144 (FixedVec2.mk 0 0) (FixedVec2.mk 0 0) true)
        (BallS.mk "B" 3 200 196608 (FixedVec2.mk 100 0) (FixedVec2.mk 0 0) true)).2.1
          c = false) ∧
      (∀ c : BallS, checkCollisionWith c (handleCollisionWith
        (BallS.mk "A" 4 200 262144 (FixedVec2.mk 0 0) (FixedVec2.mk 0 0) true)
        (BallS.mk "B" 3 200 196608 (FixedVec2.mk 100 0) (FixedVec2.mk 0 0) true)).2.1
          = false) ∧
      (∀ (W H : ℚ) (inputs : List CInput) (dt : ℚ),
        simulatePass W H [(handleCollisionWith
          (BallS.mk "A" 4 200 262144 (FixedVec2.mk 0 0) (FixedVec2.mk 0 0) true)
          (BallS.mk "B" 3 200 196608 (FixedVec2.mk 100 0) (FixedVec2.mk 0 0)
            true)).2.1] inputs dt =
          [(handleCollisionWith
            (BallS.mk "A" 4 200 262144 (FixedVec2.mk 0 0) (FixedVec2.mk 0 0) true)
            (BallS.mk "B" 3 200 196608 (FixedVec2.mk 100 0) (FixedVec2.mk 0 0)
              true)).2.1])) :=
  ⟨⟨rfl, rfl, by norm_num, by decide⟩,
    consumeBall_conservation
      (BallS.mk "A" 4 200 262144 (FixedVec2.mk 0 0) (FixedVec2.mk 0 0) true)
      (BallS.mk "B" 3 200 196608 (FixedVec2.mk 100 0) (FixedVec2.mk 0 0) true)
      rfl rfl (by norm_num) (by decide)⟩

/-- C7 counterexample: `updatePhysics` ends with `checkBoundaries`, so a
frame without any input for the ball can still change its velocity.  A
ball of radius 25 at x = 350 moving right at 200 units/s in the default
720x1280 arena is integrated past the right edge during the tick,
clamped, and its x-velocity is scaled by -0.8 — refuting the claim that
`processFrameData` leaves the velocity of an input-less ball unchanged. -/
theorem processFrameData_no_input_velocity_change :
    (List.find? (fun i => i.playerId ==
      (BallS.mk "p" 25 200 1638400 (FixedVec2.mk 22937600 0)
        (FixedVec2.mk 13107200 0) true).playerId) ([] : List CInput) = none) ∧
    (processFrameData 720 1280
        (BallS.mk "p" 25 200 1638400 (FixedVec2.mk 22937600 0)
          (FixedVec2.mk 13107200 0) true) [] (1/30)).vel.x ≠
      (BallS.mk "p" 25 200 1638400 (FixedVec2.mk 22937600 0)
        (FixedVec2.mk 13107200 0) true).vel.x := by
  constructor
  · rfl
  · have hstep : processFrameData 720 1280
        (BallS.mk "p" 25 200 1638400 (FixedVec2.mk 22937600 0)
          (FixedVec2.mk 13107200 0) true) [] (1/30) =
        updatePhysics 720 1280 (fromFloat (1/30))
          (BallS.mk "p" 25 200 1638400 (FixedVec2.mk 22937600 0)
            (FixedVec2.mk 13107200 0) true) := by
      simp [processFrameData]
    have hdt : fromFloat ((1 : ℚ)/30) = 2185 := by norm_num [fromFloat, jsRound]
    have hl : fromFloat (-((720 : ℚ) / 2)) = -23592960 := by
      norm_num [fromFloat, jsRound]
    have hr : fromFloat ((720 : ℚ) / 2) = 23592960 := by
      norm_num [fromFloat, jsRound]
    have ht : fromFloat ((1280 : ℚ) / 2) = 41943040 := by
      norm_num [fromFloat, jsRound]
    have hbm : fromFloat (-((1280 : ℚ) / 2)) = -41943040 := by
      norm_num [fromFloat, jsRound]
    have hbo : fromFloat (-0.8 : ℚ) = -52429 := by
      norm_num [fromFloat, jsRound]
    rw [hstep, hdt]
    simp only [updatePhysics, checkBoundaries, hl, hr, ht, hbm, hbo,
      FixedVec2.add, FixedVec2.multiplyScalar]
    decide

/-- C7 (amended): when a frame's input list contains no entry for a
ball, the input-processing stage leaves the ball untouched (absence is
never treated as STOP) and `processFrameData` reduces to the pure
physics step on the unchanged velocity; moreover, as long as the
integrated position stays within the radius-adjusted arena bounds, the
velocity after the frame is exactly the old velocity and the position
advanced by exactly `velocity * fixedDeltaTime` in fixed point.  (At an
arena edge `checkBoundaries` additionally clamps the position and scales
the crossed velocity component by -0.8.) -/
theorem processFrameData_no_input_keeps_velocity (W H : ℚ) (b : BallS)
    (inputs : List CInput) (dt : ℚ)
    (hno : inputs.find? (fun i => i.playerId == b.playerId) = none) :
    processFrameData W H b inputs dt = updatePhysics W H (fromFloat dt) b ∧
    (fromFloat (-(W / 2)) ≤
        (b.pos.add (b.vel.multiplyScalar (fromFloat dt))).x - b.radiusFp →
      (b.pos.add (b.vel.multiplyScalar (fromFloat dt))).x + b.radiusFp ≤
        fromFloat (W / 2) →
      (b.pos.add (b.vel.multiplyScalar (fromFloat dt))).y + b.radiusFp ≤
        fromFloat (H / 2) →
      fromFloat (-(H / 2)) ≤
        (b.pos.add (b.vel.multiplyScalar (fromFloat dt))).y - b.radiusFp →
      (processFrameData W H b inputs dt).vel = b.vel ∧
      (processFrameData W H b inputs dt).pos =
        b.pos.add (b.vel.multiplyScalar (fromFloat dt))) := by
  have hstep : processFrameData W H b inputs dt = updatePhysics W H (fromFloat dt) b := by
    simp [processFrameData, hno]
  refine ⟨hstep, ?_⟩
  intro h1 h2 h3 h4
  rw [hstep]
  have n1 : ¬((b.pos.add (b.vel.multiplyScalar (fromFloat dt))).x - b.radiusFp <
      fromFloat (-(W / 2))) := not_lt.mpr h1
  have n2 : ¬(fromFloat (W / 2) <
      (b.pos.add (b.vel.multiplyScalar (fromFloat dt))).x + b.radiusFp) := not_lt.mpr h2
  have n3 : ¬(fromFloat (H / 2) <
      (b.pos.add (b.vel.multiplyScalar (fromFloat dt))).y + b.radiusFp) := not_lt.mpr h3
  have n4 : ¬((b.pos.add (b.vel.multiplyScalar (fromFloat dt))).y - b.radiusFp <
      fromFloat (-(H / 2))) := not_lt.mpr h4
  constructor
  · simp [updatePhysics, checkBoundaries, n1, n2, n3, n4]
  · simp [updatePhysics, checkBoundaries, n1, n2, n3, n4]

theorem processFrameData_no_input_keeps_velocity_witness :
    (List.find? (fun i => i.playerId ==
        (BallS.mk "q" 25 200 1638400 (FixedVec2.mk 0 0)
          (FixedVec2.mk 13107200 0) true).playerId) ([] : List CInput) = none) ∧
    (processFrameData 720 1280
        (BallS.mk "q" 25 200 1638400 (FixedVec2.mk 0 0)
          (FixedVec2.mk 13107200 0) true) [] (1/30) =
      updatePhysics 720 1280 (fromFloat (1/30))
        (BallS.mk "q" 25 200 1638400 (FixedVec2.mk 0 0)
          (FixedVec2.mk 13107200 0) true) ∧
    (fromFloat (-((720 : ℚ) / 2)) ≤
        ((BallS.mk "q" 25 200 1638400 (FixedVec2.mk 0 0)
          (FixedVec2.mk 13107200 0) true).pos.add
          ((BallS.mk "q" 25 200 1638400 (FixedVec2.mk 0 0)
            (FixedVec2.mk 13107200 0) true).vel.multiplyScalar
            (fromFloat (1/30)))).x -
          (BallS.mk "q" 25 200 1638400 (FixedVec2.mk 0 0)
            (FixedVec2.mk 13107200 0) true).radiusFp →
      ((BallS.mk "q" 25 200 1638400 (FixedVec2.mk 0 0)
          (FixedVec2.mk 13107200 0) true).pos.add
          ((BallS.mk "q" 25 200 1638400 (FixedVec2.mk 0 0)
            (FixedVec2.mk 13107200 0) true).vel.multiplyScalar
            (fromFloat (1/30)))).x +
          (BallS.mk "q" 25 200 1638400 (FixedVec2.mk 0 0)
            (FixedVec2.mk 13107200 0) true).radiusFp ≤
        fromFloat ((720 : ℚ) / 2) →
      ((BallS.mk "q" 25 200 1638400 (FixedVec2.mk 0 0)
          (FixedVec2.mk 13107200 0) true).pos.add
          ((BallS.mk "q" 25 200 1638400 (FixedVec2.mk 0 0)
            (FixedVec2.mk 13107200 0) true).vel.multiplyScalar
            (fromFloat (1/30)))).y +
          (BallS.mk "q" 25 200 1638400 (FixedVec2.mk 0 0)
            (FixedVec2.mk 13107200 0) true).radiusFp ≤
        fromFloat ((1280 : ℚ) / 2) →
      fromFloat (-((1280 : ℚ) / 2)) ≤
        ((BallS.mk "q" 25 200 1638400 (FixedVec2.mk 0 0)
          (FixedVec2.mk 13107200 0) true).pos.add
          ((BallS.mk "q" 25 200 1638400 (FixedVec2.mk 0 0)
            (FixedVec2.mk 13107200 0) true).vel.multiplyScalar
            (fromFloat (1/30)))).y -
          (BallS.mk "q" 25 200 1638400 (FixedVec2.mk 0 0)
            (FixedVec2.mk 13107200 0) true).radiusFp →
      (processFrameData 720 1280
          (BallS.mk "q" 25 200 1638400 (FixedVec2.mk 0 0)
            (FixedVec2.mk 13107200 0) true) [] (1/30)).vel =
        (BallS.mk "q" 25 200 1638400 (FixedVec2.mk 0 0)
          (FixedVec2.mk 13107200 0) true).vel ∧
      (processFrameData 720 1280
          (BallS.mk "q" 25 200 1638400 (FixedVec2.mk 0 0)
            (FixedVec2.mk 13107200 0) true) [] (1/30)).pos =
        (BallS.mk "q" 25 200 1638400 (FixedVec2.mk 0 0)
          (FixedVec2.mk 13107200 0) true).pos.add
          ((BallS.mk "q" 25 200 1638400 (FixedVec2.mk 0 0)
            (FixedVec2.mk 13107200 0) true).vel.multiplyScalar
            (fromFloat (1/30))))) :=
  ⟨rfl,
    processFrameData_no_input_keeps_velocity 720 1280
      (BallS.mk "q" 25 200 1638400 (FixedVec2.mk 0 0)
        (FixedVec2.mk 13107200 0) true) [] (1/30) rfl⟩

/-! ### Match end (`GameManager.ts`) -/

/-- Client game state (`GameState` enum). -/
inductive CGameState where
  | waiting
  | playing
  | paused
  | finished
deriving DecidableEq

/-- Client `GameManager` state relevant to the match-end logic:
`_gameState`, the current `_players` key set, the `_balls` collection,
and whether the frame-sync loop is running.  `everJoined` is a history
(ghost) variable counting `addPlayer` calls; it is not stored by the
source and exists only to state the claim about players that have ever
joined. -/
structure GM where
  gameState : CGameState
  players : List String
  balls : List BallS
  frameSyncRunning : Bool
  everJoined : ℕ

/-- `addPlayer`: register an unseen player. -/
def addPlayer (g : GM) (p : String) : GM :=
  if p ∈ g.players then g
  else { g with players := g.players ++ [p], everJoined := g.everJoined + 1 }

/-- The removal half of `onRoomInfo`: players absent from the server's
room snapshot are dropped together with their balls. -/
def removeMissingPlayers (g : GM) (serverPlayers : List String) : GM :=
  { g with
      players := g.players.filter (fun p => p ∈ serverPlayers),
      balls := g.balls.filter (fun b => b.playerId ∈ serverPlayers) }

/-- A freshly spawned ball of `createPlayerBalls` (spawn position and
color are irrelevant to the match-end logic). -/
noncomputable def mkBall (p : String) (r : ℝ) : BallS :=
  BallS.mk p r 200 (fromFloatR r) (FixedVec2.mk 0 0) (FixedVec2.mk 0 0) true

/-- `onGameStart`: ignore a duplicate start; otherwise enter PLAYING,
create one ball per player (radius drawn from the seeded PRNG, here
abstracted as `radiusOf`), and start the frame-sync loop. -/
noncomputable def onGameStart (g : GM) (radiusOf : String → ℝ) : GM :=
  if g.gameState = CGameState.playing then g
  else
    { g with
        gameState := CGameState.playing,
        frameSyncRunning := true,
        balls := g.players.map (fun p => mkBall p (radiusOf p)) }

/-- `endGame`: enter FINISHED, stop the frame-sync loop, destroy all
balls and clear the player map. -/
def endGame (g : GM) : GM :=
  { g with
      gameState := CGameState.finished,
      frameSyncRunning := false,
      balls := [],
      players := [] }

/-- `checkGameEnd`: skipped entirely when the player map currently holds
exactly one player (practice mode); otherwise, when at most one ball is
alive, `endGame` runs with the sole survivor (or null) as declared
winner.  The second component reports the declared winner when the game
ended. -/
def checkGameEnd (g : GM) : GM × Option (Option String) :=
  if g.players.length = 1 then (g, none)
  else
    if (g.balls.filter (fun b => b.isAlive)).length ≤ 1 then
      (endGame g,
        some (((g.balls.filter (fun b => b.isAlive)).head?).map (fun b => b.playerId)))
    else (g, none)

/-- C8 counterexample: "ever joined" is not what the source tests —
`checkGameEnd` early-returns whenever the *current* player map has
exactly one entry.  Build the reachable state in which players p1 and p2
joined (everJoined = 2), the game started, and p2 then left (removed
with their ball by the room snapshot): one player remains with one
living ball, yet `checkGameEnd` neither finishes the game nor stops the
loop, refuting the claim that the game ends once more than one player
has ever joined and at most one ball remains alive. -/
theorem checkGameEnd_ever_joined_counterexample :
    (removeMissingPlayers (onGameStart (addPlayer (addPlayer
        (GM.mk CGameState.waiting [] [] false 0) "p1") "p2")
        (fun _ => 25)) ["p1"]).everJoined = 2 ∧
    ((removeMissingPlayers (onGameStart (addPlayer (addPlayer
        (GM.mk CGameState.waiting [] [] false 0) "p1") "p2")
        (fun _ => 25)) ["p1"]).balls.filter (fun b => b.isAlive)).length ≤ 1 ∧
    checkGameEnd (removeMissingPlayers (onGameStart (addPlayer (addPlayer
        (GM.mk CGameState.waiting [] [] false 0) "p1") "p2")
        (fun _ => 25)) ["p1"]) =
      (removeMissingPlayers (onGameStart (addPlayer (addPlayer
        (GM.mk CGameState.waiting [] [] false 0) "p1") "p2")
        (fun _ => 25)) ["p1"], none) ∧
    (checkGameEnd (removeMissingPlayers (onGameStart (addPlayer (addPlayer
        (GM.mk CGameState.waiting [] [] false 0) "p1") "p2")
        (fun _ => 25)) ["p1"])).1.gameState ≠ CGameState.finished ∧
    (checkGameEnd (removeMissingPlayers (onGameStart (addPlayer (addPlayer
        (GM.mk CGameState.waiting [] [] false 0) "p1") "p2")
        (fun _ => 25)) ["p1"])).1.frameSyncRunning = true := by
  have hg : removeMissingPlayers (onGameStart (addPlayer (addPlayer
      (GM.mk CGameState.waiting [] [] false 0) "p1") "p2")
      (fun _ => 25)) ["p1"] =
      GM.mk CGameState.playing ["p1"] [mkBall "p1" 25] true 2 := by
    simp [addPlayer, onGameStart, removeMissingPlayers, mkBall]
  rw [hg]
  refine ⟨rfl, by simp [mkBall], ?_, ?_, ?_⟩
  · simp [checkGameEnd]
  · simp [checkGameEnd]
  · simp [checkGameEnd]

/-- C8 (amended): `checkGameEnd` is gated on the *current* player count:
whenever the player map does not hold exactly one player and at most one
ball remains alive, the game ends — state FINISHED, the frame-sync loop
stopped, and the surviving ball's player (or no one when none survive)
declared winner; when the player map holds exactly one player (practice
mode) nothing happens, and likewise while two or more balls live. -/
theorem checkGameEnd_spec (g : GM) :
    (g.players.length ≠ 1 →
      (g.balls.filter (fun b => b.isAlive)).length ≤ 1 →
      checkGameEnd g = (endGame g,
        some (((g.balls.filter (fun b => b.isAlive)).head?).map
          (fun b => b.playerId))) ∧
      (endGame g).gameState = CGameState.finished ∧
      (endGame g).frameSyncRunning = false) ∧
    (g.players.length = 1 → checkGameEnd g = (g, none)) ∧
    (1 < (g.balls.filter (fun b => b.isAlive)).length →
      checkGameEnd g = (g, none)) := by
  refine ⟨?_, ?_, ?_⟩
  · intro hp hb
    refine ⟨?_, rfl, rfl⟩
    simp [checkGameEnd, hp, hb]
  · intro hp
    simp [checkGameEnd, hp]
  · intro hb
    by_cases hp : g.players.length = 1
    · simp [checkGameEnd, hp]
    · simp [checkGameEnd, hp]
      omega

theorem checkGameEnd_spec_witness :
    ((GM.mk CGameState.playing ["p1", "p2"]
        [BallS.mk "p1" 25 200 1638400 (FixedVec2.mk 0 0) (FixedVec2.mk 0 0) true,
          BallS.mk "p2" 25 200 1638400 (FixedVec2.mk 200 0) (FixedVec2.mk 0 0) false]
        true 2).players.length ≠ 1 ∧
      ((GM.mk CGameState.playing ["p1", "p2"]
        [BallS.mk "p1" 25 200 1638400 (FixedVec2.mk 0 0) (FixedVec2.mk 0 0) true,
          BallS.mk "p2" 25 200 1638400 (FixedVec2.mk 200 0) (FixedVec2.mk 0 0) false]
        true 2).balls.filter (fun b => b.isAlive)).length ≤ 1) ∧
    (checkGameEnd (GM.mk CGameState.playing ["p1", "p2"]
        [BallS.mk "p1" 25 200 1638400 (FixedVec2.mk 0 0) (FixedVec2.mk 0 0) true,
          BallS.mk "p2" 25 200 1638400 (FixedVec2.mk 200 0) (FixedVec2.mk 0 0) false]
        true 2) =
      (endGame (GM.mk CGameState.playing ["p1", "p2"]
        [BallS.mk "p1" 25 200 1638400 (FixedVec2.mk 0 0) (FixedVec2.mk 0 0) true,
          BallS.mk "p2" 25 200 1638400 (FixedVec2.mk 200 0) (FixedVec2.mk 0 0) false]
        true 2),
        some ((((GM.mk CGameState.playing ["p1", "p2"]
          [BallS.mk "p1" 25 200 1638400 (FixedVec2.mk 0 0) (FixedVec2.mk 0 0) true,
            BallS.mk "p2" 25 200 1638400 (FixedVec2.mk 200 0) (FixedVec2.mk 0 0)
              false] true 2).balls.filter (fun b => b.isAlive)).head?).map
          (fun b => b.playerId))) ∧
      (endGame (GM.mk CGameState.playing ["p1", "p2"]
        [BallS.mk "p1" 25 200 1638400 (FixedVec2.mk 0 0) (FixedVec2.mk 0 0) true,
          BallS.mk "p2" 25 200 1638400 (FixedVec2.mk 200 0) (FixedVec2.mk 0 0) false]
        true 2)).gameState = CGameState.finished ∧
      (endGame (GM.mk CGameState.playing ["p1", "p2"]
        [BallS.mk "p1" 25 200 1638400 (FixedVec2.mk 0 0) (FixedVec2.mk 0 0) true,
          BallS.mk "p2" 25 200 1638400 (FixedVec2.mk 200 0) (FixedVec2.mk 0 0) false]
        true 2)).frameSyncRunning = false) :=
  ⟨⟨by simp, by simp⟩,
    (checkGameEnd_spec (GM.mk CGameState.playing ["p1", "p2"]
      [BallS.mk "p1" 25 200 1638400 (FixedVec2.mk 0 0) (FixedVec2.mk 0 0) true,
        BallS.mk "p2" 25 200 1638400 (FixedVec2.mk 200 0) (FixedVec2.mk 0 0) false]
      true 2)).1 (by simp) (by simp)⟩
